import Mathlib

/-!
Verification development for the private-org-sync mirroring core of the
ci-tools repository: the naming policy (`destinationRepoName`) and the
mirror engine (`mirror`), shallowly embedded over a response oracle that
plays the role of the injected git command executor.

The mirror engine implementation (cmd/private-org-sync/main.go) is not
part of the provided sources; only its test suite
(cmd/private-org-sync/main_test.go) is.  The engine below is therefore
modelled from the specification, with every decision point and every
issued command pinned by the exact executor traces that `TestMirror`
records through its `mockGit` executor.
-/

/-- One executor response: combined output and exit status, as returned by
the mocked `git` executor (`mockGitCall.output`, `mockGitCall.exitCode`). -/
structure GitResp where
  output : String
  exitCode : Nat
deriving DecidableEq

/-- The command executor, abstracted as the sequence of responses it will
give: the i-th executor call of a run receives `resp i`.  This mirrors the
`mockGit` fixture, which answers calls strictly in order. -/
def Oracle : Type := Nat → GitResp

/-- Drop the first `k` responses: the oracle as seen by the engine after
`k` executor calls have already been made. -/
def shift (resp : Oracle) (k : Nat) : Oracle := fun i => resp (k + i)

/-- Modelled from the spec: `location` — an immutable value identifying an
organization, repository and branch (main.go's `location` struct, visible
in the tests). -/
structure location where
  org : String
  repo : String
  branch : String
deriving DecidableEq

/-- Modelled from the spec: the mirror configuration carried by main.go's
`gitSyncer` (token, confirm flag, committer identity, and the flag
controlling whether a nonexistent destination is fatal).  Fields are in
positional order token, confirm, gitName, gitEmail, failOnNonexistentDst. -/
structure gitSyncer where
  token : String
  confirm : Bool
  gitName : String
  gitEmail : String
  failOnNonexistentDst : Bool
deriving DecidableEq

/-- The git commands the engine can issue, structured.  `render` below maps
each to the exact argv string recorded by the tests' mock executor. -/
inductive GitCmd where
  | lsRemote (target : String)
  | init
  | remoteGetUrl (name : String)
  | remoteAdd (name url : String)
  | fetchDepth (remote branch : String) (depth : Nat)
  | fetchFull (remote branch : String)
  | fetchUnshallow (remote branch : String)
  | push (dryRun : Bool) (url refspec : String)
  | isShallow
  | fetchDst (url branch : String)
  | merge (name email ref msg : String)
  | checkoutFetchHead
  | mergeAbort
deriving DecidableEq

/-- Remote repository URL for a location, as the tests show it:
`https://TOKEN@github.com/org/repo`. -/
def url (g : gitSyncer) (l : location) : String :=
  "https://" ++ g.token ++ "@github.com/" ++ l.org ++ "/" ++ l.repo

/-- Name of the deterministically-named local remote for the source, as the
tests show it (`org-repo` for source org `org` and repo `repo`). -/
def remoteName (src : location) : String := src.org ++ "-" ++ src.repo

/-- Fixed, recognizable reconciliation merge commit message, pinned by the
test trace. -/
def reconciliationMessage : String := "DPTP reconciliation from upstream"

/-- The shallow-insufficient rejection signature the engine matches as a
substring of push output, pinned by the test traces. -/
def sigShallow : String :=
  "Updates were rejected because the remote contains work that you do"

/-- Substring test over character lists (the only output inspection the
engine performs besides equality and ls-remote parsing). -/
def containsList : List Char → List Char → Bool
  | _, [] => true
  | [], _ :: _ => false
  | h :: t, p :: ps => (List.isPrefixOf (p :: ps) (h :: t)) || containsList t (p :: ps)

/-- True when push output carries the shallow-insufficient signature. -/
def hasShallowSig (out : String) : Bool := containsList out.data sigShallow.data

/-- Split a character list on a separator character. -/
def splitChar (c : Char) : List Char → List (List Char)
  | [] => [[]]
  | a :: as =>
    match splitChar c as with
    | [] => if a = c then [[], []] else [[a]]
    | g :: gs => if a = c then [] :: g :: gs else (a :: g) :: gs

/-- Extract the commit of one ls-remote output line if it names the target
ref: a line is `<sha> <ref>` in the mock's format. -/
def lineCommit (target : List Char) (line : List Char) : Option (List Char) :=
  match splitChar ' ' line with
  | [sha, ref] => if ref = target then some sha else none
  | _ => none

/-- First commit found for the target ref across the output lines. -/
def firstCommit (target : List Char) : List (List Char) → List Char
  | [] => []
  | l :: ls =>
    match lineCommit target l with
    | some sha => sha
    | none => firstCommit target ls

/-- Commit listed for `refs/heads/<branch>` in an ls-remote output, or the
empty string when the branch is absent (also when the output is empty, the
brand-new-repository case). -/
def commitFor (out branch : String) : String :=
  String.mk (firstCommit ("refs/heads/" ++ branch).data (splitChar (Char.ofNat 10) out.data))

/-- Commands that mutate or grow local/remote state: fetches and pushes.
Probes (ls-remote, init, remote get-url/add, rev-parse, checkout, merge
bookkeeping) are not counted as mutating fetch/push calls. -/
def isMutating : GitCmd → Bool
  | .fetchDepth _ _ _ => true
  | .fetchFull _ _ => true
  | .fetchUnshallow _ _ => true
  | .fetchDst _ _ => true
  | .push _ _ _ => true
  | _ => false

/-- Erase the dry-run flag of push commands (identity on everything else);
used to compare traces up to dry-run flags. -/
def scrubDry : GitCmd → GitCmd
  | .push _ u r => .push true u r
  | c => c

/-- The push of the fetched tip to the destination branch (steps 6-7),
dry-run unless confirm is set. -/
def fetchHeadPush (g : gitSyncer) (dst : location) : GitCmd :=
  .push (!g.confirm) (url g dst) ("FETCH_HEAD:refs/heads/" ++ dst.branch)

/-- The push of the reconciliation merge commit (step 8), dry-run unless
confirm is set. -/
def headPush (g : gitSyncer) (dst : location) : GitCmd :=
  .push (!g.confirm) (url g dst) ("HEAD:" ++ dst.branch)

/-- A response with exit status zero. -/
abbrev okResp (r : GitResp) : Prop := r.exitCode = 0

/-- A rejection carrying the shallow-insufficient signature. -/
abbrev failsShallow (r : GitResp) : Prop := r.exitCode ≠ 0 ∧ hasShallowSig r.output = true

/-- A `rev-parse --is-shallow-repository` answer confirming shallowness. -/
abbrev saysShallow (r : GitResp) : Prop := r.output = "true"

/-- Modelled from the spec: step 8, merge reconciliation (main.go's merge
branch of `mirror`, absent from src/).  Fetch the destination branch
directly, check it out, create the reconciliation merge commit with the
configured committer identity and fixed message, and push `HEAD` to the
destination branch (respecting dry-run); if the merge fails, the very next
call aborts it and the phase fails.  Trace pinned by TestMirror lines
497-624. -/
def mergePhase (g : gitSyncer) (src dst : location) (resp : Oracle) :
    List GitCmd × Bool :=
  let fd := GitCmd.fetchDst (url g dst) dst.branch
  let mg := GitCmd.merge g.gitName g.gitEmail (remoteName src ++ "/" ++ src.branch)
    reconciliationMessage
  let ph := headPush g dst
  if (resp 0).exitCode = 0 then
    if (resp 1).exitCode = 0 then
      if (resp 2).exitCode = 0 then
        if (resp 3).exitCode = 0 then
          ([fd, .checkoutFetchHead, mg, ph], true)
        else
          ([fd, .checkoutFetchHead, mg, ph], false)
      else
        ([fd, .checkoutFetchHead, mg, .mergeAbort], false)
    else
      ([fd, .checkoutFetchHead], false)
  else
    ([fd], false)

/-- Modelled from the spec: the push attempt made when no depth-limited
history remains to escalate (after an unshallow or full fetch).  Success
ends the run; a rejection carrying the shallow-insufficient (divergent
history) signature proceeds to merge reconciliation; any other rejection is
fatal.  Pinned by TestMirror lines 436-447, 497-558 and 626-649. -/
def pushFinal (g : gitSyncer) (src dst : location) (resp : Oracle) :
    List GitCmd × Bool :=
  let pc := fetchHeadPush g dst
  if (resp 0).exitCode = 0 then
    ([pc], true)
  else if hasShallowSig (resp 0).output then
    let r := mergePhase g src dst (shift resp 1)
    (pc :: r.1, r.2)
  else
    ([pc], false)

/-- Modelled from the spec: step 6/7, the push-and-escalate loop.  `depth`
is the depth already fetched, `rem` the escalations left before the single
unshallow fetch.  On a shallow-insufficient rejection the engine queries
`rev-parse --is-shallow-repository`; if the clone is shallow it doubles the
depth (or unshallows when escalation is exhausted) and retries, otherwise
the divergence is genuine and it merges.  Pinned by TestMirror lines
449-624. -/
def pushEscalate (g : gitSyncer) (src dst : location) (resp : Oracle)
    (depth rem : Nat) : List GitCmd × Bool :=
  let pc := fetchHeadPush g dst
  if (resp 0).exitCode = 0 then
    ([pc], true)
  else if hasShallowSig (resp 0).output then
    if (resp 1).output = "true" then
      match rem with
      | 0 =>
        if (resp 2).exitCode = 0 then
          let r := pushFinal g src dst (shift resp 3)
          ([pc, .isShallow, .fetchUnshallow (remoteName src) src.branch] ++ r.1, r.2)
        else
          ([pc, .isShallow, .fetchUnshallow (remoteName src) src.branch], false)
      | rem' + 1 =>
        if (resp 2).exitCode = 0 then
          let r := pushEscalate g src dst (shift resp 3) (2 * depth) rem'
          ([pc, .isShallow, .fetchDepth (remoteName src) src.branch (2 * depth)] ++ r.1, r.2)
        else
          ([pc, .isShallow, .fetchDepth (remoteName src) src.branch (2 * depth)], false)
    else
      let r := mergePhase g src dst (shift resp 2)
      ([pc, .isShallow] ++ r.1, r.2)
  else
    ([pc], false)

/-- Modelled from the spec: step 5, the initial fetch.  Depth 2 (with up to
five further doublings available) when the destination tip is known;
unbounded when the destination is brand-new (empty tip), in which case the
engine goes straight to the final push attempt.  Pinned by TestMirror lines
268-321 and 436-447. -/
def syncPhase (g : gitSyncer) (src dst : location) (resp : Oracle)
    (dstCommit : String) : List GitCmd × Bool :=
  if dstCommit = "" then
    if (resp 0).exitCode = 0 then
      let r := pushFinal g src dst (shift resp 1)
      (GitCmd.fetchFull (remoteName src) src.branch :: r.1, r.2)
    else
      ([GitCmd.fetchFull (remoteName src) src.branch], false)
  else
    if (resp 0).exitCode = 0 then
      let r := pushEscalate g src dst (shift resp 1) 2 5
      (GitCmd.fetchDepth (remoteName src) src.branch 2 :: r.1, r.2)
    else
      ([GitCmd.fetchDepth (remoteName src) src.branch 2], false)

/-- Modelled from the spec: step 3, source tip resolution with bounded
retry.  Issues `ls-remote --heads <remote>` up to `fuel` times (the engine
calls it with fuel 5), stopping at the first exit-zero response.  Returns
the issued calls, the number of responses consumed, and the successful
output if any.  Pinned by TestMirror lines 373-400. -/
def resolveLoop (remote : String) (resp : Oracle) : Nat → List GitCmd × Nat × Option String
  | 0 => ([], 0, none)
  | fuel + 1 =>
    if (resp 0).exitCode = 0 then
      ([.lsRemote remote], 1, some (resp 0).output)
    else
      let r := resolveLoop remote (shift resp 1) fuel
      (.lsRemote remote :: r.1, r.2.1 + 1, r.2.2)

/-- Outcome of the setup phase: fatal error, silent skip (destination does
not exist and that is tolerated), or proceed with the observed destination
tip. -/
inductive SetupResult where
  | fatal
  | skip
  | proceed (dstCommit : String)
deriving DecidableEq

/-- Modelled from the spec: steps 1-2.  Probe the destination with
ls-remote (nonzero exit: the destination does not exist — fatal only when
`failOnNonexistentDst` is set, otherwise the engine stops successfully
without further calls, as TestMirror lines 413-434 pin); then `init` the
working directory and ensure the deterministically-named source remote
exists, adding it only when the `remote get-url` probe fails. -/
def setupPhase (g : gitSyncer) (src dst : location) (resp : Oracle) :
    List GitCmd × Nat × SetupResult :=
  let ls := GitCmd.lsRemote (url g dst)
  if (resp 0).exitCode = 0 then
    let d := commitFor (resp 0).output dst.branch
    if (resp 1).exitCode = 0 then
      if (resp 2).exitCode = 0 then
        ([ls, .init, .remoteGetUrl (remoteName src)], 3, .proceed d)
      else
        if (resp 3).exitCode = 0 then
          ([ls, .init, .remoteGetUrl (remoteName src),
            .remoteAdd (remoteName src) (url g src)], 4, .proceed d)
        else
          ([ls, .init, .remoteGetUrl (remoteName src),
            .remoteAdd (remoteName src) (url g src)], 4, .fatal)
    else
      ([ls, .init], 2, .fatal)
  else
    if g.failOnNonexistentDst then ([ls], 1, .fatal) else ([ls], 1, .skip)

/-- Modelled from the spec: the mirror engine `gitSyncer.mirror` (main.go,
absent from src/), assembled from the phases above exactly as §4.2 orders
them and as every TestMirror trace pins: setup, source tip resolution with
retry, convergence short-circuit, then fetch/push escalation and merge
reconciliation.  Returns the full executor trace and whether the run
succeeded (`true` = no error). -/
def mirror (g : gitSyncer) (src dst : location) (resp : Oracle) :
    List GitCmd × Bool :=
  match setupPhase g src dst resp with
  | (tr, _, .fatal) => (tr, false)
  | (tr, _, .skip) => (tr, true)
  | (tr, s, .proceed d) =>
    match resolveLoop (remoteName src) (shift resp s) 5 with
    | (tr2, _, none) => (tr ++ tr2, false)
    | (tr2, k, some out) =>
      let c := commitFor out src.branch
      if c = "" then (tr ++ tr2, false)
      else if c = d then (tr ++ tr2, true)
      else
        let r := syncPhase g src dst (shift (shift resp s) k) d
        (tr ++ tr2 ++ r.1, r.2)

/-- Render a structured command to the exact argv string the tests' mock
executor records. -/
def render : GitCmd → String
  | .lsRemote t => "ls-remote --heads " ++ t
  | .init => "init"
  | .remoteGetUrl n => "remote get-url " ++ n
  | .remoteAdd n u => "remote add " ++ n ++ " " ++ u
  | .fetchDepth r b d => "fetch --tags " ++ r ++ " " ++ b ++ " --depth=" ++ toString d
  | .fetchFull r b => "fetch --tags " ++ r ++ " " ++ b
  | .fetchUnshallow r b => "fetch --tags " ++ r ++ " " ++ b ++ " --unshallow"
  | .push dry u ref =>
    "push --tags " ++ (if dry then "--dry-run " else "") ++ u ++ " " ++ ref
  | .isShallow => "rev-parse --is-shallow-repository"
  | .fetchDst u b => "fetch " ++ u ++ " " ++ b
  | .merge nm em ref msg =>
    "-c user.name=" ++ nm ++ " -c user.email=" ++ em ++ " merge " ++ ref ++ " -m " ++ msg
  | .checkoutFetchHead => "checkout FETCH_HEAD"
  | .mergeAbort => "merge --abort"

/-- Modelled from the spec: the built-in default flatten set (main.go's
`defaultFlattenOrgs`, absent from src/); the four members below are pinned
by TestDestinationNaming. -/
def defaultFlattenOrgs : List String := ["openshift", "openshift-eng", "redhat-cne", "ViaQ"]

/-- The effective flatten set: built-in defaults, operator-supplied
additions, and the only-org override when nonempty — exactly the
construction TestDestinationNaming replays from main(). -/
def flattenSet (flattenOrgs : List String) (onlyOrg : String) : List String :=
  defaultFlattenOrgs ++ flattenOrgs ++ (if onlyOrg = "" then [] else [onlyOrg])

/-- Modelled from the spec: the naming policy `destinationRepoName` — a
source organization in the flatten set keeps its repository name; any other
gets the `<org>-<repo>` rename.  Pinned by TestDestinationNaming. -/
def destinationRepoName (src : location) (fs : List String) : String :=
  if src.org ∈ fs then src.repo else src.org ++ "-" ++ src.repo

/-- List-backed oracle: the i-th call is answered by the i-th entry,
anything past the end by an empty success (the mock instead fails the
test, which no modelled run reaches). -/
def respOfList (l : List GitResp) : Oracle := fun i => l.getD i ⟨ "", 0⟩

/-! Concrete fixtures, matching the TestMirror table (token `TOKEN`, source
`org/repo@branch`, destination `dest/repo@branch`, committer
`openshift-bot`). -/

/-- Syncer with the confirm flag set (real pushes). -/
def gConfirm : gitSyncer := ⟨ "TOKEN", true, "openshift-bot", "openshift-bot@redhat.com", false⟩

/-- Syncer with the confirm flag unset (dry-run pushes). -/
def gDry : gitSyncer := ⟨ "TOKEN", false, "openshift-bot", "openshift-bot@redhat.com", false⟩

/-- Syncer that treats a nonexistent destination as fatal. -/
def gFailDst : gitSyncer := ⟨ "TOKEN", false, "openshift-bot", "openshift-bot@redhat.com", true⟩

/-- The source location used throughout TestMirror. -/
def srcLoc : location := ⟨ "org", "repo", "branch"⟩

/-- The destination location used throughout TestMirror. -/
def dstLoc : location := ⟨ "dest", "repo", "branch"⟩

/-- Empty successful response. -/
def rOK : GitResp := ⟨ "", 0⟩

/-- Empty failing response. -/
def rFail : GitResp := ⟨ "", 1⟩

/-- Destination heads listing `dest-sha refs/heads/branch`. -/
def rDstHeads : GitResp := ⟨ "dest-sha refs/heads/branch", 0⟩

/-- Source heads listing `source-sha refs/heads/branch`. -/
def rSrcHeads : GitResp := ⟨ "source-sha refs/heads/branch", 0⟩

/-- Push rejection carrying the shallow-insufficient signature. -/
def rRejShallow : GitResp := ⟨sigShallow, 1⟩

/-- Shallow status query answering `true`. -/
def rShallowTrue : GitResp := ⟨ "true", 0⟩


/-- C9: for every source location and flatten set, `destinationRepoName`
returns the repository name unchanged when the source organization is in
the flatten set and `<org>-<repo>` otherwise; it is a pure deterministic
function (identical results on repeated invocations); and the effective
flatten set contains the built-in defaults, every operator-supplied
addition, and the only-org override. -/
theorem destinationRepoName_flatten_pure :
    (∀ (src : location) (fs : List String),
      (src.org ∈ fs → destinationRepoName src fs = src.repo) ∧
      (src.org ∉ fs → destinationRepoName src fs = src.org ++ "-" ++ src.repo) ∧
      destinationRepoName src fs = destinationRepoName src fs) ∧
    (∀ o ∈ defaultFlattenOrgs, ∀ (extra : List String) (oo : String),
      o ∈ flattenSet extra oo) ∧
    (∀ (extra : List String), ∀ o ∈ extra, ∀ oo : String, o ∈ flattenSet extra oo) ∧
    (∀ (oo : String), oo ≠ "" → ∀ extra : List String, oo ∈ flattenSet extra oo) := by
  refine ⟨fun src fs => ⟨fun h => ?_, fun h => ?_, rfl⟩, fun o ho extra oo => ?_,
    fun extra o ho oo => ?_, fun oo hoo extra => ?_⟩
  · simp [destinationRepoName, h]
  · simp [destinationRepoName, h]
  · simp [flattenSet, ho]
  · simp [flattenSet, ho]
  · simp [flattenSet, hoo]

/-- Witness for C9 at the concrete inputs of TestDestinationNaming: the
flattened org keeps its name, the unflattened org is renamed, and the
only-org override is flattened. -/
theorem destinationRepoName_flatten_pure_witness :
    destinationRepoName ⟨ "openshift-eng", "ocp-build-data", "main"⟩
        (flattenSet [] "") = "ocp-build-data" ∧
    destinationRepoName ⟨ "migtools", "must-gather", "main"⟩
        (flattenSet [] "openshift") = "migtools-must-gather" ∧
    "openshift" ∈ flattenSet [] "openshift" := by
  refine ⟨?_, ?_, ?_⟩
  · exact (destinationRepoName_flatten_pure.1 _ _).1 (by decide)
  · exact (destinationRepoName_flatten_pure.1 _ _).2.1 (by decide)
  · exact destinationRepoName_flatten_pure.2.2.2 "openshift" (by decide) []

/-- C1: in every run whose pushes are rejected with the
shallow-insufficient signature while the shallow status query keeps
confirming a shallow clone (and whose fetches succeed), the engine fetches
at exactly the depths 2, 4, 8, 16, 32, 64 — each double the previous,
starting at 2, capped at 64 — then performs exactly one unshallow fetch and
exactly one further push; no fetch at any other depth is issued. -/
theorem depth_escalation_schedule (g : gitSyncer) (src dst : location)
    (resp : Oracle) (dc : String) (hdc : dc ≠ "")
    (h0 : okResp (resp 0))
    (h1 : failsShallow (resp 1)) (h2 : saysShallow (resp 2))
    (h3 : okResp (resp 3))
    (h4 : failsShallow (resp 4)) (h5 : saysShallow (resp 5))
    (h6 : okResp (resp 6))
    (h7 : failsShallow (resp 7)) (h8 : saysShallow (resp 8))
    (h9 : okResp (resp 9))
    (h10 : failsShallow (resp 10)) (h11 : saysShallow (resp 11))
    (h12 : okResp (resp 12))
    (h13 : failsShallow (resp 13)) (h14 : saysShallow (resp 14))
    (h15 : okResp (resp 15))
    (h16 : failsShallow (resp 16)) (h17 : saysShallow (resp 17))
    (h18 : okResp (resp 18))
    (h19 : okResp (resp 19)) :
    syncPhase g src dst resp dc =
      ([.fetchDepth (remoteName src) src.branch 2, fetchHeadPush g dst, .isShallow,
        .fetchDepth (remoteName src) src.branch 4, fetchHeadPush g dst, .isShallow,
        .fetchDepth (remoteName src) src.branch 8, fetchHeadPush g dst, .isShallow,
        .fetchDepth (remoteName src) src.branch 16, fetchHeadPush g dst, .isShallow,
        .fetchDepth (remoteName src) src.branch 32, fetchHeadPush g dst, .isShallow,
        .fetchDepth (remoteName src) src.branch 64, fetchHeadPush g dst, .isShallow,
        .fetchUnshallow (remoteName src) src.branch, fetchHeadPush g dst], true) := by
  obtain ⟨h1a, h1b⟩ := h1
  obtain ⟨h4a, h4b⟩ := h4
  obtain ⟨h7a, h7b⟩ := h7
  obtain ⟨h10a, h10b⟩ := h10
  obtain ⟨h13a, h13b⟩ := h13
  obtain ⟨h16a, h16b⟩ := h16
  simp only [okResp] at h0 h3 h6 h9 h12 h15 h18 h19
  simp only [saysShallow] at h2 h5 h8 h11 h14 h17
  simp [syncPhase, pushEscalate, pushFinal, shift, hdc, h0, h1a, h1b, h2, h3, h4a, h4b,
    h5, h6, h7a, h7b, h8, h9, h10a, h10b, h11, h12, h13a, h13b, h14, h15, h16a, h16b,
    h17, h18, h19]

/-- The escalation scenario oracle of TestMirror (destination needs many
commits): every push rejected with the shallow signature, every shallow
query answering true, every fetch succeeding, final push succeeding. -/
def oEscalate : Oracle := respOfList
  [rOK, rRejShallow, rShallowTrue, rOK, rRejShallow, rShallowTrue,
   rOK, rRejShallow, rShallowTrue, rOK, rRejShallow, rShallowTrue,
   rOK, rRejShallow, rShallowTrue, rOK, rRejShallow, rShallowTrue,
   rOK, rOK]

/-- Witness for C1: the escalation schedule at the concrete TestMirror
scenario. -/
theorem depth_escalation_schedule_witness :
    (syncPhase gDry srcLoc dstLoc oEscalate "dest-sha").2 = true := by
  rw [depth_escalation_schedule gDry srcLoc dstLoc oEscalate "dest-sha" (by decide)
    (by decide) (by decide) (by decide) (by decide) (by decide) (by decide) (by decide)
    (by decide) (by decide) (by decide) (by decide) (by decide) (by decide) (by decide)
    (by decide) (by decide) (by decide) (by decide) (by decide) (by decide)]

/-- C2: whenever the reconciliation merge command fails, the very next
executor call is `merge --abort`, no call at all (in particular no push)
follows the abort, and the failure propagates: a failing sync phase makes
`mirror` return an error. -/
theorem merge_conflict_aborts_and_fails :
    (∀ (g : gitSyncer) (src dst : location) (resp : Oracle),
      okResp (resp 0) → okResp (resp 1) → (resp 2).exitCode ≠ 0 →
      mergePhase g src dst resp =
        ([.fetchDst (url g dst) dst.branch, .checkoutFetchHead,
          .merge g.gitName g.gitEmail (remoteName src ++ "/" ++ src.branch)
            reconciliationMessage, .mergeAbort], false)) ∧
    (∀ (g : gitSyncer) (src dst : location) (resp : Oracle) (tr1 tr2 tr3 : List GitCmd)
      (s k : Nat) (d out c : String),
      setupPhase g src dst resp = (tr1, s, .proceed d) →
      resolveLoop (remoteName src) (shift resp s) 5 = (tr2, k, some out) →
      commitFor out src.branch = c → c ≠ "" → c ≠ d →
      syncPhase g src dst (shift (shift resp s) k) d = (tr3, false) →
      mirror g src dst resp = (tr1 ++ tr2 ++ tr3, false)) := by
  constructor
  · intro g src dst resp h0 h1 h2
    simp only [okResp] at h0 h1
    simp [mergePhase, h0, h1, h2]
  · intro g src dst resp tr1 tr2 tr3 s k d out c hs hr hc hce hcd hsy
    rw [mirror, hs]
    simp [hr, hc, hce, hcd, hsy]

/-- Failing-merge oracle: destination fetch and checkout succeed, the merge
itself exits nonzero. -/
def oMergeFail : Oracle := respOfList [rOK, rOK, rFail]

/-- Witness for C2 at the failing-merge oracle. -/
theorem merge_conflict_aborts_and_fails_witness :
    (mergePhase gDry srcLoc dstLoc oMergeFail).2 = false := by
  rw [merge_conflict_aborts_and_fails.1 gDry srcLoc dstLoc oMergeFail
    (by decide) (by decide) (by decide)]

/-- C7: a push rejection that carries the divergent-history signature but
is unrelated to shallow depth — either the shallow status query denies the
clone is shallow, or the clone was already unshallowed and the retry push
still fails — makes the engine reconcile by merge: it fetches the
destination branch directly, checks it out, creates the merge commit with
the configured committer identity and the fixed message, pushes the result
to the destination branch as the final attempt, and returns no error on
success. -/
theorem divergence_triggers_merge_reconciliation :
    (∀ (g : gitSyncer) (src dst : location) (resp : Oracle) (depth rem : Nat),
      failsShallow (resp 0) → (resp 1).output ≠ "true" →
      okResp (resp 2) → okResp (resp 3) → okResp (resp 4) → okResp (resp 5) →
      pushEscalate g src dst resp depth rem =
        ([fetchHeadPush g dst, .isShallow,
          .fetchDst (url g dst) dst.branch, .checkoutFetchHead,
          .merge g.gitName g.gitEmail (remoteName src ++ "/" ++ src.branch)
            reconciliationMessage, headPush g dst], true)) ∧
    (∀ (g : gitSyncer) (src dst : location) (resp : Oracle),
      failsShallow (resp 0) →
      okResp (resp 1) → okResp (resp 2) → okResp (resp 3) → okResp (resp 4) →
      pushFinal g src dst resp =
        ([fetchHeadPush g dst,
          .fetchDst (url g dst) dst.branch, .checkoutFetchHead,
          .merge g.gitName g.gitEmail (remoteName src ++ "/" ++ src.branch)
            reconciliationMessage, headPush g dst], true)) := by
  constructor
  · intro g src dst resp depth rem h0 h1 h2 h3 h4 h5
    obtain ⟨h0a, h0b⟩ := h0
    simp only [okResp] at h2 h3 h4 h5
    rw [pushEscalate.eq_def]
    simp [mergePhase, shift, h0a, h0b, h1, h2, h3, h4, h5]
  · intro g src dst resp h0 h1 h2 h3 h4
    obtain ⟨h0a, h0b⟩ := h0
    simp only [okResp] at h1 h2 h3 h4
    simp [pushFinal, mergePhase, shift, h0a, h0b, h1, h2, h3, h4]

/-- Divergent-but-not-shallow oracle: push rejected with the divergence
signature, shallow query answers false, then the whole merge phase
succeeds. -/
def oDivergeMerge : Oracle := respOfList
  [rRejShallow, ⟨ "false", 0⟩, rOK, rOK, rOK, rOK]

/-- Witness for C7 at the divergent-but-not-shallow oracle. -/
theorem divergence_triggers_merge_reconciliation_witness :
    (pushEscalate gDry srcLoc dstLoc oDivergeMerge 2 5).2 = true := by
  rw [divergence_triggers_merge_reconciliation.1 gDry srcLoc dstLoc oDivergeMerge 2 5
    (by decide) (by decide) (by decide) (by decide) (by decide) (by decide)]

/-- The setup phase issues only the destination probe, the repository
initialization and remote bookkeeping: never a fetch or a push. -/
theorem setupPhase_no_mutating (g : gitSyncer) (src dst : location) (resp : Oracle) :
    ∀ c ∈ (setupPhase g src dst resp).1, isMutating c = false := by
  by_cases h0 : (resp 0).exitCode = 0 <;> by_cases h1 : (resp 1).exitCode = 0 <;>
    by_cases h2 : (resp 2).exitCode = 0 <;> by_cases h3 : (resp 3).exitCode = 0 <;>
      by_cases hf : g.failOnNonexistentDst <;>
        simp [setupPhase, h0, h1, h2, h3, hf, isMutating]

/-- The tip-resolution retry loop issues nothing but `ls-remote` probes of
the source remote. -/
theorem resolveLoop_all_lsRemote (remote : String) :
    ∀ (fuel : Nat) (resp : Oracle),
      ∀ c ∈ (resolveLoop remote resp fuel).1, c = .lsRemote remote := by
  intro fuel
  induction fuel with
  | zero => intro resp c hc; simp [resolveLoop] at hc
  | succ n ih =>
    intro resp c hc
    by_cases h : (resp 0).exitCode = 0
    · simpa [resolveLoop, h] using hc
    · simp [resolveLoop, h] at hc
      rcases hc with hc | hc
      · exact hc
      · exact ih _ _ hc

/-- C3: in every run where the resolved source tip equals the destination
tip observed by the initial probe, `mirror` stops right after tip
resolution with no error, and the whole trace contains no fetch and no
push — zero mutating executor calls. -/
theorem convergence_zero_mutating_calls (g : gitSyncer) (src dst : location)
    (resp : Oracle) (tr1 tr2 : List GitCmd) (s k : Nat) (d out c : String)
    (hs : setupPhase g src dst resp = (tr1, s, .proceed d))
    (hr : resolveLoop (remoteName src) (shift resp s) 5 = (tr2, k, some out))
    (hc : commitFor out src.branch = c) (hce : c ≠ "") (hcd : c = d) :
    mirror g src dst resp = (tr1 ++ tr2, true) ∧
    ∀ cmd ∈ tr1 ++ tr2, isMutating cmd = false := by
  subst hcd
  constructor
  · rw [mirror, hs]
    simp [hr, hc, hce]
  · intro cmd hcmd
    rcases List.mem_append.1 hcmd with hm | hm
    · have h := setupPhase_no_mutating g src dst resp
      rw [hs] at h
      exact h cmd hm
    · have h := resolveLoop_all_lsRemote (remoteName src) 5 (shift resp s)
      rw [hr] at h
      rw [h cmd hm]
      rfl

/-- In-sync oracle: destination and source report the same tip. -/
def oInSync : Oracle := respOfList [rSrcHeads, rOK, rOK, rSrcHeads]

/-- Witness for C3 at the in-sync TestMirror scenario. -/
theorem convergence_zero_mutating_calls_witness :
    (mirror gDry srcLoc dstLoc oInSync).2 = true := by
  rw [(convergence_zero_mutating_calls gDry srcLoc dstLoc oInSync
    [.lsRemote (url gDry dstLoc), .init, .remoteGetUrl (remoteName srcLoc)]
    [.lsRemote (remoteName srcLoc)] 3 1 "source-sha"
    "source-sha refs/heads/branch" "source-sha"
    (by decide) (by decide) (by decide) (by decide) (by decide)).1]

/-- C5: source-tip resolution is retried up to 5 attempts total — five
consecutive failing ls-remote probes of the source remote make `mirror`
fail with exactly those five probes and no sixth attempt, while a single
failure followed by a success (whose tip already matches the destination)
yields no error after exactly two tip-resolution probes. -/
theorem tip_resolution_retry_bound :
    (∀ (g : gitSyncer) (src dst : location) (resp : Oracle) (tr1 : List GitCmd)
      (s : Nat) (d : String),
      setupPhase g src dst resp = (tr1, s, .proceed d) →
      (shift resp s 0).exitCode ≠ 0 → (shift resp s 1).exitCode ≠ 0 →
      (shift resp s 2).exitCode ≠ 0 → (shift resp s 3).exitCode ≠ 0 →
      (shift resp s 4).exitCode ≠ 0 →
      mirror g src dst resp =
        (tr1 ++ List.replicate 5 (.lsRemote (remoteName src)), false)) ∧
    (∀ (g : gitSyncer) (src dst : location) (resp : Oracle) (tr1 : List GitCmd)
      (s : Nat) (d : String),
      setupPhase g src dst resp = (tr1, s, .proceed d) →
      (shift resp s 0).exitCode ≠ 0 → (shift resp s 1).exitCode = 0 →
      commitFor (shift resp s 1).output src.branch = d → d ≠ "" →
      mirror g src dst resp =
        (tr1 ++ [.lsRemote (remoteName src), .lsRemote (remoteName src)], true)) := by
  constructor
  · intro g src dst resp tr1 s d hs h0 h1 h2 h3 h4
    simp only [shift] at h0 h1 h2 h3 h4
    simp only [Nat.add_zero] at h0
    rw [mirror, hs]
    simp [resolveLoop, shift, h0, h1, h2, h3, h4, List.replicate]
  · intro g src dst resp tr1 s d hs h0 h1 hc hd
    simp only [shift] at h0 h1 hc
    simp only [Nat.add_zero] at h0
    rw [mirror, hs]
    simp [resolveLoop, shift, h0, h1, hc, hd]

/-- All-retries-fail oracle of TestMirror: setup succeeds, then five
failing source probes. -/
def oRetryFail : Oracle := respOfList
  [rSrcHeads, rOK, rOK, rFail, rFail, rFail, rFail, rFail]

/-- One-failure-then-success oracle of TestMirror. -/
def oRetryOnce : Oracle := respOfList [rSrcHeads, rOK, rOK, rFail, rSrcHeads]

/-- Witness for C5 at both concrete TestMirror retry scenarios. -/
theorem tip_resolution_retry_bound_witness :
    (mirror gDry srcLoc dstLoc oRetryFail).2 = false ∧
    (mirror gDry srcLoc dstLoc oRetryOnce).2 = true := by
  constructor
  · rw [tip_resolution_retry_bound.1 gDry srcLoc dstLoc oRetryFail
      [.lsRemote (url gDry dstLoc), .init, .remoteGetUrl (remoteName srcLoc)]
      3 "source-sha" (by decide) (by decide) (by decide) (by decide) (by decide)
      (by decide)]
  · rw [tip_resolution_retry_bound.2 gDry srcLoc dstLoc oRetryOnce
      [.lsRemote (url gDry dstLoc), .init, .remoteGetUrl (remoteName srcLoc)]
      3 "source-sha" (by decide) (by decide) (by decide) (by decide) (by decide)]

/-- C8: if tip resolution succeeds but the configured branch is absent from
the returned refs, `mirror` fails right there with no fetch and no push;
and whenever the branch is present (whatever other refs the output lists),
the run's remainder is determined solely by the parsed tip — additional
unrelated branches cannot change the outcome. -/
theorem missing_branch_fails_without_fetch :
    (∀ (g : gitSyncer) (src dst : location) (resp : Oracle) (tr1 tr2 : List GitCmd)
      (s k : Nat) (d out : String),
      setupPhase g src dst resp = (tr1, s, .proceed d) →
      resolveLoop (remoteName src) (shift resp s) 5 = (tr2, k, some out) →
      commitFor out src.branch = "" →
      mirror g src dst resp = (tr1 ++ tr2, false) ∧
      ∀ cmd ∈ tr1 ++ tr2, isMutating cmd = false) ∧
    (∀ (g : gitSyncer) (src dst : location) (resp : Oracle) (tr1 tr2 : List GitCmd)
      (s k : Nat) (d out c : String),
      setupPhase g src dst resp = (tr1, s, .proceed d) →
      resolveLoop (remoteName src) (shift resp s) 5 = (tr2, k, some out) →
      commitFor out src.branch = c → c ≠ "" → c ≠ d →
      mirror g src dst resp =
        (tr1 ++ tr2 ++ (syncPhase g src dst (shift (shift resp s) k) d).1,
         (syncPhase g src dst (shift (shift resp s) k) d).2)) := by
  constructor
  · intro g src dst resp tr1 tr2 s k d out hs hr hc
    constructor
    · rw [mirror, hs]
      simp [hr, hc]
    · intro cmd hcmd
      rcases List.mem_append.1 hcmd with hm | hm
      · have h := setupPhase_no_mutating g src dst resp
        rw [hs] at h
        exact h cmd hm
      · have h := resolveLoop_all_lsRemote (remoteName src) 5 (shift resp s)
        rw [hr] at h
        rw [h cmd hm]
        rfl
  · intro g src dst resp tr1 tr2 s k d out c hs hr hc hce hcd
    rw [mirror, hs]
    simp [hr, hc, hce, hcd]

/-- Missing-branch oracle of TestMirror: the source probe lists only an
unrelated branch. -/
def oNoBranch : Oracle := respOfList
  [rSrcHeads, rOK, rOK, ⟨ "some-sha refs/heads/not-the-branch", 0⟩]

/-- Witness for C8 at the missing-branch TestMirror scenario. -/
theorem missing_branch_fails_without_fetch_witness :
    (mirror gDry srcLoc dstLoc oNoBranch).2 = false := by
  rw [(missing_branch_fails_without_fetch.1 gDry srcLoc dstLoc oNoBranch
    [.lsRemote (url gDry dstLoc), .init, .remoteGetUrl (remoteName srcLoc)]
    [.lsRemote (remoteName srcLoc)] 3 1 "source-sha"
    "some-sha refs/heads/not-the-branch"
    (by decide) (by decide) (by decide)).1]

/-- C6 counterexample: with `failOnNonexistentDst` unset, a failing
destination probe does NOT make the engine proceed with the destination tip
treated as absent — the run ends immediately after the single probe, with
no error and no fetch (unbounded or otherwise) ever issued, contradicting
the claim at this concrete input. -/
theorem dst_probe_failure_counterexample :
    mirror gDry srcLoc dstLoc (respOfList [rFail]) =
      ([.lsRemote (url gDry dstLoc)], true) ∧
    (mirror gDry srcLoc dstLoc (respOfList [rFail])).1.all
      (fun c => !isMutating c) = true := by
  constructor
  · decide
  · decide

/-- C6 (amended): a failing destination probe is a fatal error exactly when
`failOnNonexistentDst` is set and otherwise ends the run successfully with
no further executor call; the unbounded-rather-than-depth-2 source fetch
happens in the brand-new-destination case where the probe succeeds but the
destination tip parses as absent/empty. -/
theorem dst_probe_gate_and_unbounded_first_fetch :
    (∀ (g : gitSyncer) (src dst : location) (resp : Oracle),
      (resp 0).exitCode ≠ 0 → g.failOnNonexistentDst = true →
      mirror g src dst resp = ([.lsRemote (url g dst)], false)) ∧
    (∀ (g : gitSyncer) (src dst : location) (resp : Oracle),
      (resp 0).exitCode ≠ 0 → g.failOnNonexistentDst = false →
      mirror g src dst resp = ([.lsRemote (url g dst)], true)) ∧
    (∀ (g : gitSyncer) (src dst : location) (resp : Oracle),
      (syncPhase g src dst resp "").1.head? =
        some (.fetchFull (remoteName src) src.branch)) ∧
    (∀ (g : gitSyncer) (src dst : location) (resp : Oracle) (dc : String),
      dc ≠ "" →
      (syncPhase g src dst resp dc).1.head? =
        some (.fetchDepth (remoteName src) src.branch 2)) := by
  refine ⟨fun g src dst resp h0 hf => ?_, fun g src dst resp h0 hf => ?_,
    fun g src dst resp => ?_, fun g src dst resp dc hdc => ?_⟩
  · have hsetup : setupPhase g src dst resp = ([.lsRemote (url g dst)], 1, .fatal) := by
      simp [setupPhase, h0, hf]
    rw [mirror, hsetup]
  · have hsetup : setupPhase g src dst resp = ([.lsRemote (url g dst)], 1, .skip) := by
      simp [setupPhase, h0, hf]
    rw [mirror, hsetup]
  · by_cases h : (resp 0).exitCode = 0 <;> simp [syncPhase, h]
  · by_cases h : (resp 0).exitCode = 0 <;> simp [syncPhase, h, hdc]

/-- Witness for the amended C6: the fatal gate at the concrete TestMirror
scenario and the unbounded first fetch of the brand-new-destination
scenario. -/
theorem dst_probe_gate_and_unbounded_first_fetch_witness :
    (mirror gFailDst srcLoc dstLoc (respOfList [rFail])).2 = false ∧
    (syncPhase gDry srcLoc dstLoc (respOfList [rOK, rOK]) "").1.head? =
      some (.fetchFull (remoteName srcLoc) srcLoc.branch) := by
  constructor
  · rw [dst_probe_gate_and_unbounded_first_fetch.1 gFailDst srcLoc dstLoc
      (respOfList [rFail]) (by decide) (by decide)]
  · exact dst_probe_gate_and_unbounded_first_fetch.2.2.1 gDry srcLoc dstLoc
      (respOfList [rOK, rOK])

/-- With the confirm flag unset, the merge-reconciliation phase never
issues a non-dry-run push. -/
theorem mergePhase_dry (g : gitSyncer) (src dst : location) (resp : Oracle)
    (hg : g.confirm = false) :
    ∀ u r, GitCmd.push false u r ∉ (mergePhase g src dst resp).1 := by
  intro u r
  by_cases h0 : (resp 0).exitCode = 0 <;> by_cases h1 : (resp 1).exitCode = 0 <;>
    by_cases h2 : (resp 2).exitCode = 0 <;> by_cases h3 : (resp 3).exitCode = 0 <;>
      simp [mergePhase, headPush, h0, h1, h2, h3, hg]

/-- With the confirm flag unset, the final push attempt (and anything it
leads to) never issues a non-dry-run push. -/
theorem pushFinal_dry (g : gitSyncer) (src dst : location) (resp : Oracle)
    (hg : g.confirm = false) :
    ∀ u r, GitCmd.push false u r ∉ (pushFinal g src dst resp).1 := by
  intro u r
  by_cases h0 : (resp 0).exitCode = 0
  · simp [pushFinal, fetchHeadPush, h0, hg]
  · by_cases hsig : hasShallowSig (resp 0).output
    · simp [pushFinal, fetchHeadPush, h0, hsig, hg]
      exact mergePhase_dry g src dst (shift resp 1) hg u r
    · simp [pushFinal, fetchHeadPush, h0, hsig, hg]

/-- With the confirm flag unset, the whole escalation loop never issues a
non-dry-run push, at any depth and any remaining escalation budget. -/
theorem pushEscalate_dry (g : gitSyncer) (src dst : location)
    (hg : g.confirm = false) :
    ∀ (rem : Nat) (resp : Oracle) (depth : Nat),
      ∀ u r, GitCmd.push false u r ∉ (pushEscalate g src dst resp depth rem).1 := by
  intro rem
  induction rem with
  | zero =>
    intro resp depth u r
    by_cases h0 : (resp 0).exitCode = 0
    · simp [pushEscalate, fetchHeadPush, h0, hg]
    · by_cases hsig : hasShallowSig (resp 0).output
      · by_cases hsh : (resp 1).output = "true"
        · by_cases h2 : (resp 2).exitCode = 0
          · simp [pushEscalate, fetchHeadPush, h0, hsig, hsh, h2, hg]
            exact pushFinal_dry g src dst (shift resp 3) hg u r
          · simp [pushEscalate, fetchHeadPush, h0, hsig, hsh, h2, hg]
        · simp [pushEscalate, fetchHeadPush, h0, hsig, hsh, hg]
          exact mergePhase_dry g src dst (shift resp 2) hg u r
      · simp [pushEscalate, fetchHeadPush, h0, hsig, hg]
  | succ m ih =>
    intro resp depth u r
    by_cases h0 : (resp 0).exitCode = 0
    · simp [pushEscalate, fetchHeadPush, h0, hg]
    · by_cases hsig : hasShallowSig (resp 0).output
      · by_cases hsh : (resp 1).output = "true"
        · by_cases h2 : (resp 2).exitCode = 0
          · simp [pushEscalate, fetchHeadPush, h0, hsig, hsh, h2, hg]
            exact ih (shift resp 3) (2 * depth) u r
          · simp [pushEscalate, fetchHeadPush, h0, hsig, hsh, h2, hg]
        · simp [pushEscalate, fetchHeadPush, h0, hsig, hsh, hg]
          exact mergePhase_dry g src dst (shift resp 2) hg u r
      · simp [pushEscalate, fetchHeadPush, h0, hsig, hg]

/-- With the confirm flag unset, the fetch/push/merge phase never issues a
non-dry-run push. -/
theorem syncPhase_dry (g : gitSyncer) (src dst : location) (resp : Oracle)
    (dc : String) (hg : g.confirm = false) :
    ∀ u r, GitCmd.push false u r ∉ (syncPhase g src dst resp dc).1 := by
  intro u r
  by_cases hdc : dc = "" <;> by_cases h0 : (resp 0).exitCode = 0 <;>
    simp [syncPhase, hdc, h0, hg]
  · exact pushFinal_dry g src dst (shift resp 1) hg u r
  · exact pushEscalate_dry g src dst hg 5 (shift resp 1) 2 u r

/-- C4: in every run with the confirm flag unset, every push `mirror`
issues — the fetched-tip pushes of the escalation loop and the push after a
reconciliation merge alike — carries the dry-run flag; a non-dry-run push
never appears in the trace. -/
theorem dry_run_safety (g : gitSyncer) (src dst : location) (resp : Oracle)
    (hg : g.confirm = false) :
    ∀ u r, GitCmd.push false u r ∉ (mirror g src dst resp).1 := by
  intro u r
  have hsetup := setupPhase_no_mutating g src dst resp
  rcases hs : setupPhase g src dst resp with ⟨tr1, s, res⟩
  rw [hs] at hsetup
  have htr1 : GitCmd.push false u r ∉ tr1 := by
    intro hm
    have := hsetup _ hm
    simp [isMutating] at this
  cases res with
  | fatal => rw [mirror, hs]; exact htr1
  | skip => rw [mirror, hs]; exact htr1
  | proceed d =>
    have hres := resolveLoop_all_lsRemote (remoteName src) 5 (shift resp s)
    rcases hr : resolveLoop (remoteName src) (shift resp s) 5 with ⟨tr2, k, ores⟩
    rw [hr] at hres
    have htr2 : GitCmd.push false u r ∉ tr2 := by
      intro hm
      have := hres _ hm
      simp at this
    cases ores with
    | none =>
      rw [mirror, hs]
      simp [hr]
      exact ⟨htr1, htr2⟩
    | some out =>
      rw [mirror, hs]
      simp only [hr]
      by_cases hc : commitFor out src.branch = ""
      · by_cases hd : d = "" <;> simp [hc, hd] <;> exact ⟨htr1, htr2⟩
      · by_cases hcd : commitFor out src.branch = d
        · have hd : d ≠ "" := hcd ▸ hc
          simp [hcd, hd]
          exact ⟨htr1, htr2⟩
        · simp [hc, hcd]
          exact ⟨htr1, htr2, syncPhase_dry g src dst (shift (shift resp s) k) d hg u r⟩

/-- Warm-cache dry-run success oracle of TestMirror. -/
def oWarm : Oracle := respOfList [rDstHeads, rOK, rOK, rSrcHeads, rOK, rOK]

/-- Witness for C4: in the warm-cache dry-run scenario, no non-dry-run push
to the destination appears in the trace. -/
theorem dry_run_safety_witness :
    GitCmd.push false (url gDry dstLoc) ("FETCH_HEAD:refs/heads/" ++ dstLoc.branch) ∉
      (mirror gDry srcLoc dstLoc oWarm).1 :=
  dry_run_safety gDry srcLoc dstLoc oWarm rfl _ _

/-- The setup phase never reads the confirm flag: two syncers differing
only there behave identically. -/
theorem setupPhase_confirm_agnostic (tok : String) (c1 c2 : Bool) (nm em : String)
    (f : Bool) (src dst : location) (resp : Oracle) :
    setupPhase ⟨tok, c1, nm, em, f⟩ src dst resp =
      setupPhase ⟨tok, c2, nm, em, f⟩ src dst resp := rfl

/-- The merge-reconciliation phase is unchanged by the confirm flag up to
the dry-run flag of its push, and its outcome is unchanged. -/
theorem mergePhase_confirm_invariant (tok : String) (c1 c2 : Bool) (nm em : String)
    (f : Bool) (src dst : location) (resp : Oracle) :
    (mergePhase ⟨tok, c1, nm, em, f⟩ src dst resp).1.map scrubDry =
      (mergePhase ⟨tok, c2, nm, em, f⟩ src dst resp).1.map scrubDry ∧
    (mergePhase ⟨tok, c1, nm, em, f⟩ src dst resp).2 =
      (mergePhase ⟨tok, c2, nm, em, f⟩ src dst resp).2 := by
  by_cases h0 : (resp 0).exitCode = 0 <;> by_cases h1 : (resp 1).exitCode = 0 <;>
    by_cases h2 : (resp 2).exitCode = 0 <;> by_cases h3 : (resp 3).exitCode = 0 <;>
      simp [mergePhase, headPush, scrubDry, url, h0, h1, h2, h3]

/-- The final push attempt is unchanged by the confirm flag up to dry-run
flags, and its outcome is unchanged. -/
theorem pushFinal_confirm_invariant (tok : String) (c1 c2 : Bool) (nm em : String)
    (f : Bool) (src dst : location) (resp : Oracle) :
    (pushFinal ⟨tok, c1, nm, em, f⟩ src dst resp).1.map scrubDry =
      (pushFinal ⟨tok, c2, nm, em, f⟩ src dst resp).1.map scrubDry ∧
    (pushFinal ⟨tok, c1, nm, em, f⟩ src dst resp).2 =
      (pushFinal ⟨tok, c2, nm, em, f⟩ src dst resp).2 := by
  by_cases h0 : (resp 0).exitCode = 0
  · simp [pushFinal, fetchHeadPush, scrubDry, url, h0]
  · by_cases hsig : hasShallowSig (resp 0).output
    · have h := mergePhase_confirm_invariant tok c1 c2 nm em f src dst (shift resp 1)
      simp [pushFinal, fetchHeadPush, scrubDry, url, h0, hsig, h.1, h.2]
    · simp [pushFinal, fetchHeadPush, scrubDry, url, h0, hsig]

/-- The escalation loop is unchanged by the confirm flag up to dry-run
flags, at every depth and escalation budget, and its outcome is
unchanged. -/
theorem pushEscalate_confirm_invariant (tok : String) (c1 c2 : Bool) (nm em : String)
    (f : Bool) (src dst : location) :
    ∀ (rem : Nat) (resp : Oracle) (depth : Nat),
    (pushEscalate ⟨tok, c1, nm, em, f⟩ src dst resp depth rem).1.map scrubDry =
      (pushEscalate ⟨tok, c2, nm, em, f⟩ src dst resp depth rem).1.map scrubDry ∧
    (pushEscalate ⟨tok, c1, nm, em, f⟩ src dst resp depth rem).2 =
      (pushEscalate ⟨tok, c2, nm, em, f⟩ src dst resp depth rem).2 := by
  intro rem
  induction rem with
  | zero =>
    intro resp depth
    by_cases h0 : (resp 0).exitCode = 0
    · simp [pushEscalate, fetchHeadPush, scrubDry, url, h0]
    · by_cases hsig : hasShallowSig (resp 0).output
      · by_cases hsh : (resp 1).output = "true"
        · by_cases h2 : (resp 2).exitCode = 0
          · have h := pushFinal_confirm_invariant tok c1 c2 nm em f src dst (shift resp 3)
            simp [pushEscalate, fetchHeadPush, scrubDry, url, h0, hsig, hsh, h2, h.1, h.2]
          · simp [pushEscalate, fetchHeadPush, scrubDry, url, h0, hsig, hsh, h2]
        · have h := mergePhase_confirm_invariant tok c1 c2 nm em f src dst (shift resp 2)
          simp [pushEscalate, fetchHeadPush, scrubDry, url, h0, hsig, hsh, h.1, h.2]
      · simp [pushEscalate, fetchHeadPush, scrubDry, url, h0, hsig]
  | succ m ih =>
    intro resp depth
    by_cases h0 : (resp 0).exitCode = 0
    · simp [pushEscalate, fetchHeadPush, scrubDry, url, h0]
    · by_cases hsig : hasShallowSig (resp 0).output
      · by_cases hsh : (resp 1).output = "true"
        · by_cases h2 : (resp 2).exitCode = 0
          · have h := ih (shift resp 3) (2 * depth)
            simp [pushEscalate, fetchHeadPush, scrubDry, url, h0, hsig, hsh, h2, h.1, h.2]
          · simp [pushEscalate, fetchHeadPush, scrubDry, url, h0, hsig, hsh, h2]
        · have h := mergePhase_confirm_invariant tok c1 c2 nm em f src dst (shift resp 2)
          simp [pushEscalate, fetchHeadPush, scrubDry, url, h0, hsig, hsh, h.1, h.2]
      · simp [pushEscalate, fetchHeadPush, scrubDry, url, h0, hsig]

/-- The fetch/push/merge phase is unchanged by the confirm flag up to
dry-run flags, and its outcome is unchanged. -/
theorem syncPhase_confirm_invariant (tok : String) (c1 c2 : Bool) (nm em : String)
    (f : Bool) (src dst : location) (resp : Oracle) (dc : String) :
    (syncPhase ⟨tok, c1, nm, em, f⟩ src dst resp dc).1.map scrubDry =
      (syncPhase ⟨tok, c2, nm, em, f⟩ src dst resp dc).1.map scrubDry ∧
    (syncPhase ⟨tok, c1, nm, em, f⟩ src dst resp dc).2 =
      (syncPhase ⟨tok, c2, nm, em, f⟩ src dst resp dc).2 := by
  by_cases hdc : dc = ""
  · by_cases h0 : (resp 0).exitCode = 0
    · have h := pushFinal_confirm_invariant tok c1 c2 nm em f src dst (shift resp 1)
      simp [syncPhase, scrubDry, hdc, h0, h.1, h.2]
    · simp [syncPhase, scrubDry, hdc, h0]
  · by_cases h0 : (resp 0).exitCode = 0
    · have h := pushEscalate_confirm_invariant tok c1 c2 nm em f src dst 5 (shift resp 1) 2
      simp [syncPhase, scrubDry, hdc, h0, h.1, h.2]
    · simp [syncPhase, scrubDry, hdc, h0]

/-- C10: for identical executor responses, runs with the confirm flag set
and unset issue the same command sequence up to the dry-run flag of push
commands — the confirm flag never influences which probes,
initializations, remote operations or fetches are issued, nor their order
or arguments, nor the run's outcome. -/
theorem confirm_flag_only_toggles_dry_run (tok : String) (c1 c2 : Bool)
    (nm em : String) (f : Bool) (src dst : location) (resp : Oracle) :
    (mirror ⟨tok, c1, nm, em, f⟩ src dst resp).1.map scrubDry =
      (mirror ⟨tok, c2, nm, em, f⟩ src dst resp).1.map scrubDry ∧
    (mirror ⟨tok, c1, nm, em, f⟩ src dst resp).2 =
      (mirror ⟨tok, c2, nm, em, f⟩ src dst resp).2 := by
  have hsetup := setupPhase_confirm_agnostic tok c1 c2 nm em f src dst resp
  rcases hs : setupPhase ⟨tok, c1, nm, em, f⟩ src dst resp with ⟨tr1, s, res⟩
  have hs2 : setupPhase ⟨tok, c2, nm, em, f⟩ src dst resp = (tr1, s, res) := by
    rw [← hsetup, hs]
  cases res with
  | fatal => rw [mirror, mirror, hs, hs2]; exact ⟨rfl, rfl⟩
  | skip => rw [mirror, mirror, hs, hs2]; exact ⟨rfl, rfl⟩
  | proceed d =>
    rcases hr : resolveLoop (remoteName src) (shift resp s) 5 with ⟨tr2, k, ores⟩
    cases ores with
    | none =>
      rw [mirror, mirror, hs, hs2]
      simp [hr]
    | some out =>
      rw [mirror, mirror, hs, hs2]
      simp only [hr]
      by_cases hc : commitFor out src.branch = ""
      · by_cases hd : d = "" <;> simp [hc, hd]
      · by_cases hcd : commitFor out src.branch = d
        · have hd : d ≠ "" := hcd ▸ hc
          simp [hcd, hd]
        · have h := syncPhase_confirm_invariant tok c1 c2 nm em f src dst
            (shift (shift resp s) k) d
          simp [hc, hcd, h.1, h.2]

/-- Witness for C10: at the warm-cache TestMirror scenario the confirmed
and dry-run runs issue the same commands up to dry-run flags. -/
theorem confirm_flag_only_toggles_dry_run_witness :
    (mirror gConfirm srcLoc dstLoc oWarm).1.map scrubDry =
      (mirror gDry srcLoc dstLoc oWarm).1.map scrubDry :=
  (confirm_flag_only_toggles_dry_run "TOKEN" true false "openshift-bot"
    "openshift-bot@redhat.com" false srcLoc dstLoc oWarm).1
